import Mathlib

/-!
Shallow embedding of the `tlsprotocol` Go package (listener.go, protocol.go,
worker.go): a TLS listener that demultiplexes accepted connections by the
ALPN protocol negotiated during the handshake.

Modelling conventions:
* Connections are identified by natural numbers.
* A Go channel of capacity 1 is a `Chan`: a buffer list plus a closed flag.
  A blocking send is modelled as the eventual enqueue; receive readiness and
  the `value, ok` receive form are modelled explicitly.  Closing a channel
  does not discard buffered values (Go semantics); `close` on a nil or
  already-closed channel is a runtime panic, modelled as `Except.error`.
* The Go nil map / nil slice are modelled as the empty list: every observable
  operation the code performs (range, lookup, len) treats them identically,
  and the code guards map insertion with its own nil check.
* `buildSocket` performs OS socket construction; it is abstracted as an
  oracle list of per-call results (`Except String Unit`).  Its caching of the
  resolved address is not needed by any claim and is left abstract.
* Worker goroutines: the mutex-protected regions of worker.start/stop and
  the accept loop are modelled as atomic steps of explicit schedules.
-/

/-- The `net.Addr` a listener reports: `Network()` and `String()`. -/
structure NetAddr where
  network : String
  text : String
deriving Repr, DecidableEq

/-- `syscall.Sockaddr` as cached in `Listener.sockAddr` (v4 or v6). -/
inductive SockAddr
  | inet4 (addr : List Nat) (port : Int)
  | inet6 (addr : List Nat) (port : Int)
deriving Repr, DecidableEq

/-- A Go channel of capacity 1: buffered contents plus whether it is closed. -/
structure Chan (α : Type) where
  buf : List α
  closed : Bool
deriving Repr, DecidableEq

/-- Buffered send into a channel (the capacity-1 blocking send: the sender
blocks until there is room, so the value eventually sits at the back). -/
def chanSend {α : Type} (ch : Chan α) (x : α) : Chan α :=
  { ch with buf := ch.buf ++ [x] }

/-- A receive is ready (does not block) when the buffer is non-empty or the
channel is closed. A nil channel is handled at each use site. -/
def chanRecvReady {α : Type} (ch : Chan α) : Bool :=
  !ch.buf.isEmpty || ch.closed

/-- worker.go: one accept worker.  `running` is the mutex-guarded flag;
`socketClosed` records whether its `net.Listener` socket has been closed.
The mutex itself is implicit in the atomicity of the step functions below. -/
structure worker where
  running : Bool
  socketClosed : Bool
deriving Repr, DecidableEq

/-- worker.stop: under the lock, set `running` to false and close the socket. -/
def worker.stop (w : worker) : worker :=
  { w with running := false, socketClosed := true }

/-- A TLS connection as the routing code observes it: identity, handshake
outcome, and the ALPN fields of `ConnectionState()`. -/
structure TLSConn where
  id : Nat
  handshakeOk : Bool
  negotiatedProtocol : String
  negotiatedProtocolIsMutual : Bool
deriving Repr, DecidableEq

/-- The Listener struct of listener.go.  `TLSConfig` is consumed only through
its `NextProtos` list, which is modelled directly. -/
structure Listener where
  BindAddr : String
  NextProtos : List String
  Listeners : Nat
  workers : List (Option worker)
  addr : Option NetAddr
  sockAddr : Option SockAddr
  channels : List (String × Chan Nat)
  defaultChannel : Option (Chan Nat)
  errors : Option (Chan String)
deriving Repr, DecidableEq

/-- Registry lookup, `listener.channels[proto]` (nil map misses). -/
def lookupRoute : List (String × Chan Nat) → String → Option (Chan Nat)
  | [], _ => none
  | (k, v) :: rest, p => if k = p then some v else lookupRoute rest p

/-- Enqueue a connection into the route registered under `p`. -/
def updateRoute : List (String × Chan Nat) → String → Nat → List (String × Chan Nat)
  | [], _, _ => []
  | (k, v) :: rest, p, c =>
    if k = p then (k, chanSend v c) :: rest else (k, v) :: updateRoute rest p c

/-- Linear scan of `NextProtos`, the loop body of `protocolConfigured`. -/
def protoInList : List String → String → Bool
  | [], _ => false
  | p :: rest, proto => if p = proto then true else protoInList rest proto

/-- listener.go `protocolConfigured`: is the ALPN name listed in the TLS
configuration's `NextProtos`? -/
def Listener.protocolConfigured (l : Listener) (proto : String) : Bool :=
  protoInList l.NextProtos proto

/-- The fresh, empty route channel `make(chan net.Conn, 1)`. -/
def emptyRoute : Chan Nat := { buf := [], closed := false }

/-- listener.go `Protocol`: registers a route for an ALPN name.  Returns the
error message (if any) together with the updated receiver; the failing paths
return before the registry insert, so they leave the receiver unchanged. -/
def Listener.Protocol (l : Listener) (proto : String) : Option String × Listener :=
  if l.workers.length > 0 then
    (some "protocol listener must be created before starting listener", l)
  else if (lookupRoute l.channels proto).isSome then
    (some ("protocol listener already declared for proto: " ++ proto), l)
  else if !l.protocolConfigured proto then
    (some ("protocol not specified in the TLS configuration: " ++ proto), l)
  else
    (none, { l with channels := (proto, emptyRoute) :: l.channels })

/-- listener.go `Addr`: report the cached high-level resolved address. -/
def Listener.Addr (l : Listener) : Option NetAddr := l.addr

/-- Phase one of `Stop`: every non-nil worker pointer in the slice is stopped
in place (`listener.workers[i].stop()`); this is the state of those worker
objects after the loop, before the slice is discarded. -/
def Listener.stopSnapshot (l : Listener) : List (Option worker) :=
  l.workers.map (Option.map worker.stop)

/-- The drain step of `Stop`: when exactly one connection is buffered in the
default channel it is received (and closed); otherwise the buffer is left. -/
def drainDefault (ch : Chan Nat) : Chan Nat :=
  if ch.buf.length = 1 then { ch with buf := [] } else ch

/-- listener.go `Stop`: stop every worker, close (and remove) every protocol
route, drain one pending default connection, then `close(defaultChannel)` and
clear `workers`, `channels` and `sockAddr`.  The unconditional `close` is a
Go runtime panic when `defaultChannel` is nil (listener never started) or
already closed (second `Stop`); the panic aborts before the clearing
assignments, and is modelled as `Except.error`. -/
def Listener.Stop (l : Listener) : Except String Listener :=
  match l.defaultChannel with
  | none => Except.error "close of nil channel"
  | some ch =>
    if ch.closed then Except.error "close of closed channel"
    else Except.ok { l with
      workers := [],
      channels := [],
      defaultChannel := some { buf := (drainDefault ch).buf, closed := true },
      sockAddr := none }

/-- listener.go `Close`: delegates to `Stop`, and returns nil error when
`Stop` returns (a `Stop` panic propagates). -/
def Listener.Close (l : Listener) : Except String Listener := l.Stop

/-- A worker as `Start` creates it: `&worker{parent, socket}` followed by
`start()`, which flips `running` to true and launches the accept loop. -/
def newStartedWorker : worker := { running := true, socketClosed := false }

/-- The `for i := range listener.workers` loop of `Start`.  `builds` is the
oracle of successive `buildSocket` results; `created` tracks the worker
objects constructed so far (the non-nil slice entries).  On a build failure
the loop runs `listener.Stop()` — which stops each created worker — and
returns the wrapped error; the ghost result is the final state of every
worker object created during the call. -/
def Listener.startLoop (l : Listener) (builds : List (Except String Unit)) :
    Nat → Nat → List worker → (Except String Unit) × Listener × List worker
  | _, 0, created => (Except.ok (), l, created)
  | i, fuel + 1, created =>
    match builds.getD i (Except.ok ()) with
    | Except.error e =>
      match l.Stop with
      | Except.ok lf =>
        (Except.error ("builder worker socket: " ++ e), lf, created.map worker.stop)
      | Except.error p => (Except.error p, l, created.map worker.stop)
    | Except.ok _ =>
      Listener.startLoop
        { l with workers := l.workers.set i (some newStartedWorker) }
        builds (i + 1) fuel (created ++ [newStartedWorker])

/-- listener.go `Start`: default the worker count to 1, allocate the worker
slice (all nil), create the default and error channels (both open, empty),
then run the construction loop. -/
def Listener.Start (l : Listener) (builds : List (Except String Unit)) :
    (Except String Unit) × Listener × List worker :=
  let n := if l.Listeners = 0 then 1 else l.Listeners
  Listener.startLoop
    { l with
      Listeners := n,
      workers := List.replicate n none,
      defaultChannel := some { buf := [], closed := false },
      errors := some { buf := [], closed := false } }
    builds 0 n []

/-- Where `connectionReceived` delivered a connection: dropped after a failed
handshake (the connection is closed), enqueued on the route registered for
the negotiated name, or enqueued on the default channel. -/
inductive RouteOutcome
  | dropped
  | toProto (name : String)
  | toDefault
deriving Repr, DecidableEq

/-- listener.go `connectionReceived`: handshake, then route.  Returns the
routing outcome, whether `tlsConn.Close()` was called, and the updated
listener state (the destination queue with the connection enqueued). -/
def Listener.connectionReceived (l : Listener) (conn : TLSConn) :
    RouteOutcome × Bool × Listener :=
  if !conn.handshakeOk then
    (RouteOutcome.dropped, true, l)
  else if (lookupRoute l.channels conn.negotiatedProtocol).isSome
          && conn.negotiatedProtocolIsMutual then
    (RouteOutcome.toProto conn.negotiatedProtocol, false,
      { l with channels := updateRoute l.channels conn.negotiatedProtocol conn.id })
  else
    (RouteOutcome.toDefault, false,
      { l with defaultChannel := l.defaultChannel.map (fun ch => chanSend ch conn.id) })

/-- What a call to an accept method does right now, in the current state. -/
inductive AcceptResult
  | conn (c : Nat)
  | err (msg : String)
  | nilResult
  | blocked
  | goPanic (msg : String)
deriving Repr, DecidableEq

/-- listener.go `Accept`: a `select` over the default channel and the error
channel.  A case is ready when its channel receive would not block (nil
channels never are).  When both are ready Go picks one pseudo-randomly; the
choice is given by `preferDefault`.  A closed empty default channel yields
the not-ok branch, which formats an error from `listener.addr` — a nil
pointer dereference when the address was never resolved.  A closed error
channel would yield `return nil, err` with a nil error (`nilResult`); the
code never closes it. -/
def Listener.Accept (l : Listener) (preferDefault : Bool) : AcceptResult :=
  let dReady := match l.defaultChannel with
    | none => false
    | some ch => chanRecvReady ch
  let eReady := match l.errors with
    | none => false
    | some ch => chanRecvReady ch
  if dReady && (preferDefault || !eReady) then
    match l.defaultChannel with
    | some ch =>
      match ch.buf with
      | c :: _ => AcceptResult.conn c
      | [] =>
        match l.addr with
        | none => AcceptResult.goPanic "invalid memory address or nil pointer dereference"
        | some a =>
          AcceptResult.err
            ("accept " ++ a.network ++ " " ++ a.text ++ ": use of closed network connection")
    | none => AcceptResult.blocked
  else if eReady then
    match l.errors with
    | some ch =>
      match ch.buf with
      | e :: _ => AcceptResult.err e
      | [] => AcceptResult.nilResult
    | none => AcceptResult.blocked
  else
    AcceptResult.blocked

/-- protocol.go `Accept`: `conn, open := <-protocol.channel`.  A buffered
connection is delivered first (with `open = true` even on a closed channel);
only a closed and empty channel takes the not-open branch and errors. -/
def Protocol.Accept (ch : Chan Nat) : AcceptResult :=
  match ch.buf with
  | c :: _ => AcceptResult.conn c
  | [] =>
    if ch.closed then AcceptResult.err "use of closed socket"
    else AcceptResult.blocked

/-- Remove a route from the registry (`delete(parent.channels, proto)`). -/
def removeRoute : List (String × Chan Nat) → String → List (String × Chan Nat)
  | [], _ => []
  | (k, v) :: rest, p => if k = p then rest else (k, v) :: removeRoute rest p

/-- protocol.go `Close`: when the route is still registered, close its
channel and delete it from the parent registry; otherwise report it already
closed. -/
def Protocol.Close (l : Listener) (proto : String) : Except String Listener :=
  if (lookupRoute l.channels proto).isSome then
    Except.ok { l with channels := removeRoute l.channels proto }
  else
    Except.error "listener already closed"

/-- protocol.go `Addr`: delegates to the parent listener's cached address. -/
def Protocol.Addr (l : Listener) : Option NetAddr := l.addr

/-!
Interleaving model of `worker.start` (worker.go).  The body is

    if worker.isRunning() { return }        -- lock; read running; unlock
    worker.lock.Lock()
    defer worker.lock.Unlock()
    worker.running = true
    go worker.listen()                      -- still inside the locked region

so one call consists of two atomic lock-protected steps: the read inside
`isRunning`, and the flip-and-launch.  A thread is at `pc` 0 before the
check, at `pc` 1 after a check that saw `running = false` (committed to the
second region), and at `pc` 2 after returning; `launched` records whether it
executed `go worker.listen()`.
-/

/-- One start-calling thread of the interleaving model. -/
structure StartThread where
  pc : Nat
  launched : Bool
deriving Repr, DecidableEq

/-- A thread before its `isRunning` check, with nothing launched. -/
def startInit : StartThread := { pc := 0, launched := false }

/-- One atomic step of a thread running `worker.start` against the shared
`running` flag: the `isRunning` read at `pc` 0, the flip-and-launch at
`pc` 1, and no effect once returned. -/
def stepStart (running : Bool) (t : StartThread) : Bool × StartThread :=
  match t.pc with
  | 0 =>
    if running then (running, { t with pc := 2 })
    else (running, { t with pc := 1 })
  | 1 => (true, { pc := 2, launched := true })
  | _ => (running, t)

/-- Run a schedule of two threads both calling `worker.start` on the same
worker: `true` steps the first thread, `false` the second. -/
def runStartSched : List Bool → Bool × StartThread × StartThread →
    Bool × StartThread × StartThread
  | [], s => s
  | pick1 :: rest, (running, t1, t2) =>
    if pick1 then
      let r := stepStart running t1
      runStartSched rest (r.1, r.2, t2)
    else
      let r := stepStart running t2
      runStartSched rest (r.1, t1, r.2)

/-!
Trace model of `worker.listen` (worker.go).  Each loop iteration first
evaluates `worker.isRunning()`; a `false` exits the loop.  Otherwise
`worker.socket.Accept()` returns either an error — which the body forwards
with `worker.parent.errors <- err` before `continue` re-checks the flag —
or a connection, handed to a `connectionReceived` goroutine.  A schedule
entry gives the value `isRunning` returned for that iteration and, when
true, what `Accept` returned (a concurrent `stop` can flip the flag and
close the socket at any point between entries).
-/

/-- Observable actions of one `worker.listen` iteration. -/
inductive LoopEvent
  | forwarded (e : String)
  | handled (c : Nat)
deriving Repr, DecidableEq

/-- The accept loop of `worker.listen` over a schedule of iteration inputs. -/
def worker.listen : List (Bool × Except String Nat) → List LoopEvent
  | [] => []
  | (false, _) :: _ => []
  | (true, Except.error e) :: rest => LoopEvent.forwarded e :: worker.listen rest
  | (true, Except.ok c) :: rest => LoopEvent.handled c :: worker.listen rest

/-!  Concrete states used by witnesses and counterexamples.  -/

/-- A zero-value listener as a caller first builds it: one configured ALPN
protocol, never started. -/
def l0 : Listener :=
  { BindAddr := "127.0.0.1:6080", NextProtos := ["h2"], Listeners := 0,
    workers := [], addr := none, sockAddr := none, channels := [],
    defaultChannel := none, errors := none }

/-- A running listener: one started worker, open default and error
channels, resolved address. -/
def l1 : Listener :=
  { BindAddr := "127.0.0.1:6080", NextProtos := ["h2"], Listeners := 1,
    workers := [some newStartedWorker],
    addr := some { network := "tcp", text := "127.0.0.1:6080" },
    sockAddr := some (SockAddr.inet4 [127, 0, 0, 1] 6080), channels := [],
    defaultChannel := some { buf := [], closed := false },
    errors := some { buf := [], closed := false } }

/-- The resolved address of the concrete listeners. -/
def addr0 : NetAddr := { network := "tcp", text := "127.0.0.1:6080" }

/-- `l1` after a successful `Stop`: default channel closed, error channel
still open, worker list and registry cleared, low-level address cleared. -/
def l1stopped : Listener :=
  { BindAddr := "127.0.0.1:6080", NextProtos := ["h2"], Listeners := 1,
    workers := [], addr := some addr0, sockAddr := none, channels := [],
    defaultChannel := some { buf := [], closed := true },
    errors := some { buf := [], closed := false } }

/-- `l0` with a route registered for `h2` (the successful `Protocol` call). -/
def l0h2 : Listener := { l0 with channels := [("h2", emptyRoute)] }

/-- `l0` asking for two workers. -/
def l0two : Listener := { l0 with Listeners := 2 }

/-- A connection that completed its handshake mutually negotiating `h2`. -/
def conn1 : TLSConn :=
  { id := 5, handshakeOk := true, negotiatedProtocol := "h2",
    negotiatedProtocolIsMutual := true }

/-- A connection whose TLS handshake failed. -/
def conn0 : TLSConn :=
  { id := 9, handshakeOk := false, negotiatedProtocol := "",
    negotiatedProtocolIsMutual := false }

/-- The racing schedule: both threads pass the `isRunning` check before
either runs the flip-and-launch region. -/
def bothStartSched : List Bool := [true, false, true, false]

/-!  Helper lemmas.  -/

/-- `protocolConfigured`'s scan finds the name exactly when it is a member
of `NextProtos`. -/
theorem protoInList_iff (ps : List String) (p : String) :
    protoInList ps p = true ↔ p ∈ ps := by
  induction ps with
  | nil => simp [protoInList]
  | cons q rest ih =>
    by_cases h : q = p
    · subst h
      simp [protoInList]
    · simp only [protoInList, if_neg h, List.mem_cons, ih]
      constructor
      · exact fun hm => Or.inr hm
      · rintro (rfl | hm)
        · exact absurd rfl h
        · exact hm

/-- Enqueueing through `updateRoute` changes exactly the queue registered
under the given name. -/
theorem lookupRoute_updateRoute (chans : List (String × Chan Nat)) (p : String) (c : Nat) :
    lookupRoute (updateRoute chans p c) p =
      (lookupRoute chans p).map (fun ch => chanSend ch c) := by
  induction chans with
  | nil => simp [lookupRoute, updateRoute]
  | cons kv rest ih =>
    rcases kv with ⟨k, v⟩
    by_cases h : k = p
    · subst h
      simp [lookupRoute, updateRoute]
    · simp [lookupRoute, updateRoute, h, ih]

/-- `Stop` succeeds exactly by writing the cleaned state: inverting the
success case of `Listener.Stop`. -/
theorem Stop_ok_inv (l lf : Listener) (h : l.Stop = Except.ok lf) :
    ∃ ch, l.defaultChannel = some ch ∧ ch.closed = false ∧
      lf = { l with
              workers := []
              channels := []
              defaultChannel := some { buf := (drainDefault ch).buf, closed := true }
              sockAddr := none } := by
  unfold Listener.Stop at h
  split at h
  · cases h
  · rename_i ch hd
    split at h
    · cases h
    · rename_i hc
      exact ⟨ch, hd, by simpa using hc, by cases h; rfl⟩

/-- C1 (counterexample): `Stop` on a never-started listener panics — its
unconditional `close(listener.defaultChannel)` closes a nil channel — and
`Stop` immediately after a successful `Stop` panics closing the
already-closed default channel, so the claim that stopping when not running
or stopping twice never fails is false on the code. -/
theorem claim_C1_counterexample :
    l0.Stop = Except.error "close of nil channel" ∧
    Except.bind l1.Stop Listener.Stop = Except.error "close of closed channel" :=
  ⟨rfl, rfl⟩

/-- C1 (amended): `Stop` on a listener whose default channel exists and is
open succeeds; but `Stop` on a never-started listener panics closing the nil
default channel, and a second `Stop` panics closing the already-closed
default channel. -/
theorem claim_C1_amended (l : Listener) :
    (l.defaultChannel = none → l.Stop = Except.error "close of nil channel") ∧
    (∀ ch, l.defaultChannel = some ch → ch.closed = false →
      ∃ lf, l.Stop = Except.ok lf) ∧
    (∀ lf, l.Stop = Except.ok lf → lf.Stop = Except.error "close of closed channel") := by
  refine ⟨fun hd => ?_, fun ch hd hc => ?_, fun lf hok => ?_⟩
  · unfold Listener.Stop
    rw [hd]
  · unfold Listener.Stop
    rw [hd]
    simp [hc]
  · obtain ⟨ch, hd, hc, rfl⟩ := Stop_ok_inv l lf hok
    rfl

/-- C1 (witness): the amended stop behaviour at the concrete never-started
listener and at the concrete stopped listener. -/
theorem claim_C1_witness :
    l0.Stop = Except.error "close of nil channel" ∧
    l1stopped.Stop = Except.error "close of closed channel" :=
  ⟨(claim_C1_amended l0).1 rfl, (claim_C1_amended l1).2.2 l1stopped rfl⟩

/-- C2: `Protocol` fails — reporting an error and leaving the receiver, in
particular the route registry, unchanged — exactly when workers already
exist, or the name is already registered, or the name is missing from the
TLS configuration's `NextProtos`; on success it prepends a fresh empty route
for the name to the registry. -/
theorem claim_C2_protocol_registration (l : Listener) (proto : String) :
    ((l.Protocol proto).1.isSome = true ↔
      (0 < l.workers.length ∨ (lookupRoute l.channels proto).isSome = true ∨
        proto ∉ l.NextProtos)) ∧
    ((l.Protocol proto).1.isSome = true → (l.Protocol proto).2 = l) ∧
    ((l.Protocol proto).1 = none →
      (l.Protocol proto).2 = { l with channels := (proto, emptyRoute) :: l.channels }) := by
  unfold Listener.Protocol
  by_cases h1 : 0 < l.workers.length
  · simp [h1]
  · by_cases h2 : (lookupRoute l.channels proto).isSome = true
    · simp [h1, h2]
    · by_cases h3 : l.protocolConfigured proto = true
      · have hm : proto ∈ l.NextProtos := (protoInList_iff _ _).mp h3
        simp [h1, h2, h3, hm]
      · have hm : proto ∉ l.NextProtos := fun hmem => h3 ((protoInList_iff _ _).mpr hmem)
        simp [h1, h2, h3, hm]

/-- C2 (witness): registering `h2` on the fresh listener succeeds and
inserts the empty route; registering the unconfigured `h3` fails. -/
theorem claim_C2_witness :
    (l0.Protocol "h2").2 = l0h2 ∧ (l0.Protocol "h3").1.isSome = true :=
  ⟨(claim_C2_protocol_registration l0 "h2").2.2 rfl,
   (claim_C2_protocol_registration l0 "h3").1.mpr (Or.inr (Or.inr (by simp [l0])))⟩

/-- C3: for a connection whose handshake succeeded, `connectionReceived`
delivers it to the queue of the route registered under the exact negotiated
name if and only if such a route is in the registry and negotiation was
mutual; in every other case the connection goes to the default queue. -/
theorem claim_C3_routing (l : Listener) (c : TLSConn) (h : c.handshakeOk = true) :
    ((l.connectionReceived c).1 = RouteOutcome.toProto c.negotiatedProtocol ↔
      ((lookupRoute l.channels c.negotiatedProtocol).isSome = true ∧
        c.negotiatedProtocolIsMutual = true)) ∧
    (((lookupRoute l.channels c.negotiatedProtocol).isSome = true ∧
        c.negotiatedProtocolIsMutual = true) →
      lookupRoute ((l.connectionReceived c).2.2).channels c.negotiatedProtocol =
        (lookupRoute l.channels c.negotiatedProtocol).map (fun ch => chanSend ch c.id) ∧
      ((l.connectionReceived c).2.2).defaultChannel = l.defaultChannel) ∧
    (¬((lookupRoute l.channels c.negotiatedProtocol).isSome = true ∧
        c.negotiatedProtocolIsMutual = true) →
      (l.connectionReceived c).1 = RouteOutcome.toDefault ∧
      ((l.connectionReceived c).2.2).channels = l.channels ∧
      ((l.connectionReceived c).2.2).defaultChannel =
        l.defaultChannel.map (fun ch => chanSend ch c.id)) := by
  unfold Listener.connectionReceived
  by_cases hm1 : (lookupRoute l.channels c.negotiatedProtocol).isSome = true <;>
    by_cases hm2 : c.negotiatedProtocolIsMutual = true <;>
    simp [h, hm1, hm2, lookupRoute_updateRoute]

/-- C3 (witness): on the listener with the `h2` route, a mutual `h2`
connection is routed to the `h2` queue. -/
theorem claim_C3_witness :
    (l0h2.connectionReceived conn1).1 = RouteOutcome.toProto "h2" :=
  (claim_C3_routing l0h2 conn1 rfl).1.mpr ⟨rfl, rfl⟩

/-- C5: a connection whose handshake fails is closed and dropped silently:
the outcome is `dropped`, `Close` was called on it, and the listener state —
every route queue, the default queue and the error channel — is unchanged. -/
theorem claim_C5_handshake_drop (l : Listener) (c : TLSConn)
    (h : c.handshakeOk = false) :
    l.connectionReceived c = (RouteOutcome.dropped, true, l) := by
  unfold Listener.connectionReceived
  simp [h]

/-- C5 (witness): the failed-handshake connection is dropped on the
concrete listener. -/
theorem claim_C5_witness :
    l0h2.connectionReceived conn0 = (RouteOutcome.dropped, true, l0h2) :=
  claim_C5_handshake_drop l0h2 conn0 rfl

/-- C10: a successful `Stop` leaves `BindAddr`, the TLS configuration's
protocol list, the worker count and the high-level resolved address — and
also the error channel — unchanged, so `Addr` after `Stop` still reports
the previously resolved address. -/
theorem claim_C10_stop_frame (l lf : Listener) (h : l.Stop = Except.ok lf) :
    lf.BindAddr = l.BindAddr ∧ lf.NextProtos = l.NextProtos ∧
    lf.Listeners = l.Listeners ∧ lf.addr = l.addr ∧ lf.errors = l.errors ∧
    lf.Addr = l.Addr := by
  obtain ⟨ch, hd, hc, rfl⟩ := Stop_ok_inv l lf h
  exact ⟨rfl, rfl, rfl, rfl, rfl, rfl⟩

/-- C10 (witness): the frame condition at the concrete running listener and
its stopped state. -/
theorem claim_C10_witness :
    l1stopped.BindAddr = l1.BindAddr ∧ l1stopped.NextProtos = l1.NextProtos ∧
    l1stopped.Listeners = l1.Listeners ∧ l1stopped.addr = l1.addr ∧
    l1stopped.errors = l1.errors ∧ l1stopped.Addr = l1.Addr :=
  claim_C10_stop_frame l1 l1stopped rfl

/-- C6 (counterexample): `Accept` on a closed Protocol Route does not always
return a closed-connection error: a Go receive from a closed channel drains
the buffer first with `open = true`, so a route closed while one connection
was still queued yields that connection, not an error. -/
theorem claim_C6_counterexample :
    Protocol.Accept { buf := [7], closed := true } = AcceptResult.conn 7 := rfl

/-- C6 (amended): `Accept` on a closed Protocol Route returns the
closed-socket error once its queue is empty, but first yields any connection
still buffered at close time; on a closed route it never panics and never
blocks.  `Accept` on the orchestrator in the post-`Stop` state (default
queue drained and closed, address resolved, no pending worker error) returns
the closed-network-connection error. -/
theorem claim_C6_amended :
    (∀ ch : Chan Nat, ch.closed = true → ch.buf = [] →
      Protocol.Accept ch = AcceptResult.err "use of closed socket") ∧
    (∀ (ch : Chan Nat) (c : Nat) (rest : List Nat), ch.buf = c :: rest →
      Protocol.Accept ch = AcceptResult.conn c) ∧
    (∀ ch : Chan Nat, ch.closed = true →
      Protocol.Accept ch ≠ AcceptResult.blocked ∧
      ∀ m, Protocol.Accept ch ≠ AcceptResult.goPanic m) ∧
    (∀ (l : Listener) (a : NetAddr) (preferDefault : Bool),
      l.defaultChannel = some { buf := [], closed := true } →
      l.errors = some { buf := [], closed := false } →
      l.addr = some a →
      l.Accept preferDefault =
        AcceptResult.err
          ("accept " ++ a.network ++ " " ++ a.text ++ ": use of closed network connection")) := by
  refine ⟨fun ch hc hb => ?_, fun ch c rest hb => ?_, fun ch hc => ?_,
    fun l a preferDefault hd he ha => ?_⟩
  · unfold Protocol.Accept
    rw [hb, hc]
    rfl
  · unfold Protocol.Accept
    rw [hb]
  · unfold Protocol.Accept
    cases hb : ch.buf with
    | nil => rw [hc]; exact ⟨by simp, fun m => by simp⟩
    | cons c rest => exact ⟨by simp, fun m => by simp⟩
  · unfold Listener.Accept
    rw [hd, he, ha]
    simp [chanRecvReady]

/-- C6 (witness): the amended accept behaviour at a drained closed route and
at the concrete stopped orchestrator. -/
theorem claim_C6_witness :
    Protocol.Accept { buf := [], closed := true } = AcceptResult.err "use of closed socket" ∧
    l1stopped.Accept true =
      AcceptResult.err "accept tcp 127.0.0.1:6080: use of closed network connection" :=
  ⟨claim_C6_amended.1 { buf := [], closed := true } rfl rfl,
   claim_C6_amended.2.2.2 l1stopped addr0 true rfl rfl rfl⟩

/-- Invariant behind the amended C8: with the running flag already true, no
thread of the two-thread start race ever reaches the flip-and-launch step. -/
theorem runStartSched_already_running (sched : List Bool) :
    ∀ t1 t2 : StartThread, t1.pc ≠ 1 → t2.pc ≠ 1 →
      t1.launched = false → t2.launched = false →
      (runStartSched sched (true, t1, t2)).1 = true ∧
      (runStartSched sched (true, t1, t2)).2.1.pc ≠ 1 ∧
      (runStartSched sched (true, t1, t2)).2.1.launched = false ∧
      (runStartSched sched (true, t1, t2)).2.2.pc ≠ 1 ∧
      (runStartSched sched (true, t1, t2)).2.2.launched = false := by
  induction sched with
  | nil => exact fun t1 t2 h1 h2 hl1 hl2 => ⟨rfl, h1, hl1, h2, hl2⟩
  | cons pick rest ih =>
    intro t1 t2 h1 h2 hl1 hl2
    unfold runStartSched
    by_cases hp : pick = true
    · subst hp
      simp only [if_pos rfl]
      match ht : t1.pc, h1 with
      | 0, _ =>
        have hs : stepStart true t1 = (true, { t1 with pc := 2 }) := by
          unfold stepStart
          rw [ht]
          rfl
        rw [hs]
        exact ih { t1 with pc := 2 } t2 (by simp) h2 (by simpa using hl1) hl2
      | n + 2, _ =>
        have hs : stepStart true t1 = (true, t1) := by
          unfold stepStart
          rw [ht]
          rfl
        rw [hs]
        exact ih t1 t2 h1 h2 hl1 hl2
    · simp only [if_neg hp]
      match ht : t2.pc, h2 with
      | 0, _ =>
        have hs : stepStart true t2 = (true, { t2 with pc := 2 }) := by
          unfold stepStart
          rw [ht]
          rfl
        rw [hs]
        exact ih t1 { t2 with pc := 2 } h1 (by simp) hl1 (by simpa using hl2)
      | n + 2, _ =>
        have hs : stepStart true t2 = (true, t2) := by
          unfold stepStart
          rw [ht]
          rfl
        rw [hs]
        exact ih t1 t2 h1 h2 hl1 hl2

/-- C8 (counterexample): the claim that two concurrent `worker.start` calls
can never both launch an accept loop is false: `start` reads the flag inside
`isRunning` under one lock acquisition and flips it under a second, so the
schedule in which both threads pass the check before either flips ends with
both threads having run `go worker.listen()`. -/
theorem claim_C8_counterexample :
    (runStartSched bothStartSched (false, startInit, startInit)).2.1.launched = true ∧
    (runStartSched bothStartSched (false, startInit, startInit)).2.2.launched = true :=
  ⟨rfl, rfl⟩

/-- C8 (amended): `worker.start` is idempotent against an already-running
worker — under every interleaving of two start calls beginning with the
running flag true, neither call launches an accept loop and the flag stays
true — but the check and the flip happen under two separate lock
acquisitions, so two concurrent start calls on a stopped worker can both
launch accept loops, as the racing schedule exhibits. -/
theorem claim_C8_amended :
    (∀ sched : List Bool,
      (runStartSched sched (true, startInit, startInit)).1 = true ∧
      (runStartSched sched (true, startInit, startInit)).2.1.launched = false ∧
      (runStartSched sched (true, startInit, startInit)).2.2.launched = false) ∧
    ((runStartSched bothStartSched (false, startInit, startInit)).2.1.launched = true ∧
     (runStartSched bothStartSched (false, startInit, startInit)).2.2.launched = true) := by
  refine ⟨fun sched => ?_, rfl, rfl⟩
  obtain ⟨hr, _, hl1, _, hl2⟩ :=
    runStartSched_already_running sched startInit startInit (by simp [startInit])
      (by simp [startInit]) rfl rfl
  exact ⟨hr, hl1, hl2⟩

/-- C8 (witness): the amended start behaviour evaluated on the empty
schedule from an already-running worker. -/
theorem claim_C8_witness :
    (runStartSched [] (true, startInit, startInit)).1 = true ∧
    (runStartSched [] (true, startInit, startInit)).2.1.launched = false :=
  ⟨(claim_C8_amended.1 []).1, (claim_C8_amended.1 []).2.1⟩

/-- C9 (counterexample): the claim that the accept loop never forwards the
post-stop accept error is false: when `stop` closes the socket while the
loop is blocked in `Accept`, the loop body sends the resulting error to the
orchestrator's error channel before `continue` re-checks the flag. -/
theorem claim_C9_counterexample :
    worker.listen [(true, Except.error "accept tcp 127.0.0.1:6080: use of closed network connection"),
      (false, Except.ok 0)] =
      [LoopEvent.forwarded "accept tcp 127.0.0.1:6080: use of closed network connection"] := rfl

/-- C9 (amended): when `stop` closes the socket during a pending `Accept`,
the loop forwards that one error to the error channel and then exits
quietly: with the running flag false from then on, the trace is exactly one
forwarded error and the loop terminates (no infinite error-forward loop). -/
theorem claim_C9_amended (e : String) (rest : List (Bool × Except String Nat))
    (h : ∀ p ∈ rest, p.1 = false) :
    worker.listen ((true, Except.error e) :: rest) = [LoopEvent.forwarded e] := by
  have htail : worker.listen rest = [] := by
    cases rest with
    | nil => rfl
    | cons q r =>
      obtain ⟨b, x⟩ := q
      have hq : b = false := h (b, x) (List.mem_cons_self _ _)
      subst hq
      rfl
  unfold worker.listen
  rw [htail]

/-- Equation: the construction loop with no iterations left succeeds. -/
theorem startLoop_zero (builds : List (Except String Unit)) (l : Listener)
    (i : Nat) (created : List worker) :
    Listener.startLoop l builds i 0 created = (Except.ok (), l, created) := rfl

/-- Equation: a failing `buildSocket` makes the loop stop the listener and
return the wrapped error (success case of the inner `Stop`). -/
theorem startLoop_succ_err (builds : List (Except String Unit)) (l : Listener)
    (i f : Nat) (created : List worker) (e : String) (lf : Listener)
    (hb : builds.getD i (Except.ok ()) = Except.error e)
    (hs : l.Stop = Except.ok lf) :
    Listener.startLoop l builds i (f + 1) created =
      (Except.error ("builder worker socket: " ++ e), lf, created.map worker.stop) := by
  unfold Listener.startLoop
  rw [hb, hs]

/-- Equation: a failing `buildSocket` whose inner `Stop` itself panics (a
state unreachable from `Start`, whose default channel is freshly open). -/
theorem startLoop_succ_err_panic (builds : List (Except String Unit)) (l : Listener)
    (i f : Nat) (created : List worker) (e p : String)
    (hb : builds.getD i (Except.ok ()) = Except.error e)
    (hs : l.Stop = Except.error p) :
    Listener.startLoop l builds i (f + 1) created =
      (Except.error p, l, created.map worker.stop) := by
  unfold Listener.startLoop
  rw [hb, hs]

/-- Equation: a successful `buildSocket` installs a started worker at slot
`i` and continues with the next slot. -/
theorem startLoop_succ_ok (builds : List (Except String Unit)) (l : Listener)
    (i f : Nat) (created : List worker)
    (hb : builds.getD i (Except.ok ()) = Except.ok ()) :
    Listener.startLoop l builds i (f + 1) created =
      Listener.startLoop { l with workers := l.workers.set i (some newStartedWorker) }
        builds (i + 1) f (created ++ [newStartedWorker]) := by
  conv_lhs => unfold Listener.startLoop
  rw [hb]

/-- The construction loop never touches the error channel. -/
theorem startLoop_errors (builds : List (Except String Unit)) :
    ∀ (fuel : Nat) (l : Listener) (i : Nat) (created : List worker),
      ((Listener.startLoop l builds i fuel created).2.1).errors = l.errors := by
  intro fuel
  induction fuel with
  | zero => intro l i created; rfl
  | succ f ih =>
    intro l i created
    cases hb : builds.getD i (Except.ok ()) with
    | error e =>
      cases hs : l.Stop with
      | ok lf =>
        obtain ⟨ch, hd, hc, rfl⟩ := Stop_ok_inv l lf hs
        rw [startLoop_succ_err builds l i f created e _ hb hs]
      | error p =>
        rw [startLoop_succ_err_panic builds l i f created e p hb hs]
    | ok u =>
      rw [startLoop_succ_ok builds l i f created hb]
      exact ih _ _ _

/-- A construction loop that returns success leaves the default channel as
it found it. -/
theorem startLoop_ok_defaultChannel (builds : List (Except String Unit)) :
    ∀ (fuel : Nat) (l : Listener) (i : Nat) (created : List worker),
      (Listener.startLoop l builds i fuel created).1 = Except.ok () →
      ((Listener.startLoop l builds i fuel created).2.1).defaultChannel = l.defaultChannel := by
  intro fuel
  induction fuel with
  | zero => intro l i created _; rfl
  | succ f ih =>
    intro l i created hok
    cases hb : builds.getD i (Except.ok ()) with
    | error e =>
      cases hs : l.Stop with
      | ok lf =>
        rw [startLoop_succ_err builds l i f created e lf hb hs] at hok
        simp at hok
      | error p =>
        rw [startLoop_succ_err_panic builds l i f created e p hb hs] at hok
        simp at hok
    | ok u =>
      rw [startLoop_succ_ok builds l i f created hb] at hok ⊢
      exact ih _ _ _ hok

/-- When the `k`-th remaining `buildSocket` call fails (all earlier ones
succeeding), the construction loop returns the wrapped error, the listener
after a full `Stop` of everything created so far, and a ghost list showing
every worker object created during the call in stopped state. -/
theorem startLoop_fail (builds : List (Except String Unit)) :
    ∀ (k : Nat) (l : Listener) (i fuel : Nat) (created : List worker)
      (e : String) (ch : Chan Nat),
      l.defaultChannel = some ch → ch.closed = false → k < fuel →
      (∀ j, j < k → builds.getD (i + j) (Except.ok ()) = Except.ok ()) →
      builds.getD (i + k) (Except.ok ()) = Except.error e →
      ∃ ghost : List worker,
        Listener.startLoop l builds i fuel created =
          (Except.error ("builder worker socket: " ++ e),
           { l with
              workers := []
              channels := []
              defaultChannel := some { buf := (drainDefault ch).buf, closed := true }
              sockAddr := none },
           ghost.map worker.stop) := by
  intro k
  induction k with
  | zero =>
    intro l i fuel created e ch hd hc hk hpre hfail
    cases fuel with
    | zero => omega
    | succ f =>
      rw [Nat.add_zero] at hfail
      have hs : l.Stop = Except.ok { l with
          workers := []
          channels := []
          defaultChannel := some { buf := (drainDefault ch).buf, closed := true }
          sockAddr := none } := by
        unfold Listener.Stop
        rw [hd]
        simp [hc]
      exact ⟨created, startLoop_succ_err builds l i f created e _ hfail hs⟩
  | succ k ih =>
    intro l i fuel created e ch hd hc hk hpre hfail
    cases fuel with
    | zero => omega
    | succ f =>
      have hb0 : builds.getD i (Except.ok ()) = Except.ok () := by
        have := hpre 0 (Nat.succ_pos k)
        rwa [Nat.add_zero] at this
      have hpre' : ∀ j, j < k → builds.getD (i + 1 + j) (Except.ok ()) = Except.ok () := by
        intro j hj
        have h2 := hpre (j + 1) (by omega)
        have he : i + (j + 1) = i + 1 + j := by omega
        rwa [he] at h2
      have hfail' : builds.getD (i + 1 + k) (Except.ok ()) = Except.error e := by
        have he : i + 1 + k = i + (k + 1) := by omega
        rw [he]
        exact hfail
      obtain ⟨ghost, hg⟩ := ih
        { l with workers := l.workers.set i (some newStartedWorker) }
        (i + 1) f (created ++ [newStartedWorker]) e ch hd hc (by omega) hpre' hfail'
      rw [startLoop_succ_ok builds l i f created hb0]
      exact ⟨ghost, hg⟩

/-- C4: when the `k`-th of the N socket constructions fails during `Start`,
`Start` performs a full stop of everything created so far — worker list and
registry cleared, default channel closed, low-level address cleared, every
worker object created during the call left stopped with its socket closed —
and returns the wrapped construction error. -/
theorem claim_C4_start_rollback (l : Listener) (builds : List (Except String Unit))
    (k : Nat) (e : String)
    (hk : k < (if l.Listeners = 0 then 1 else l.Listeners))
    (hpre : ∀ j, j < k → builds.getD j (Except.ok ()) = Except.ok ())
    (hfail : builds.getD k (Except.ok ()) = Except.error e) :
    ∃ lf ghost,
      l.Start builds = (Except.error ("builder worker socket: " ++ e), lf, ghost) ∧
      lf.workers = [] ∧ lf.channels = [] ∧ lf.sockAddr = none ∧
      (∃ chf, lf.defaultChannel = some chf ∧ chf.closed = true) ∧
      (∀ w ∈ ghost, w.running = false ∧ w.socketClosed = true) := by
  have hpre0 : ∀ j, j < k → builds.getD (0 + j) (Except.ok ()) = Except.ok () := by
    intro j hj
    rw [Nat.zero_add]
    exact hpre j hj
  have hfail0 : builds.getD (0 + k) (Except.ok ()) = Except.error e := by
    rw [Nat.zero_add]
    exact hfail
  obtain ⟨ghost, hg⟩ := startLoop_fail builds k
    { l with
        Listeners := if l.Listeners = 0 then 1 else l.Listeners
        workers := List.replicate (if l.Listeners = 0 then 1 else l.Listeners) none
        defaultChannel := some { buf := [], closed := false }
        errors := some { buf := [], closed := false } }
    0 (if l.Listeners = 0 then 1 else l.Listeners) [] e { buf := [], closed := false }
    rfl rfl hk hpre0 hfail0
  refine ⟨_, ghost.map worker.stop, hg, rfl, rfl, rfl, ⟨_, rfl, rfl⟩, ?_⟩
  intro w hw
  simp only [List.mem_map] at hw
  obtain ⟨w0, _, rfl⟩ := hw
  exact ⟨rfl, rfl⟩

/-- C4 (witness): on a two-worker listener whose second socket construction
fails, `Start` rolls back fully and returns the wrapped error. -/
theorem claim_C4_witness :
    ∃ lf ghost,
      l0two.Start [Except.ok (), Except.error "boom"] =
        (Except.error "builder worker socket: boom", lf, ghost) ∧
      lf.workers = [] ∧ lf.channels = [] ∧ lf.sockAddr = none ∧
      (∃ chf, lf.defaultChannel = some chf ∧ chf.closed = true) ∧
      (∀ w ∈ ghost, w.running = false ∧ w.socketClosed = true) :=
  claim_C4_start_rollback l0two [Except.ok (), Except.error "boom"] 1 "boom"
    (by decide)
    (by
      intro j hj
      have hj0 : j = 0 := by omega
      subst hj0
      rfl)
    rfl

/-- C7 (counterexample): the claim that the default queue and the error
channel are both closed by `Stop` is false on the code: `Stop` closes only
the default channel; after a real `Start` followed by `Stop`, the error
channel is still open. -/
theorem claim_C7_counterexample :
    Except.map (fun ls => (ls.defaultChannel, ls.errors)) ((l0.Start [Except.ok ()]).2.1).Stop =
      Except.ok (some { buf := [], closed := true }, some { buf := [], closed := false }) := rfl

/-- C7 (amended): the default queue and the error channel are both created
by `Start` (fresh, open, empty); `Stop` closes the default queue but leaves
the error channel open and unchanged; and neither channel is recreated by
any other operation — `Protocol` preserves both fields, `connectionReceived`
preserves the error channel and the existence of the default queue. -/
theorem claim_C7_amended :
    (∀ (l : Listener) (builds : List (Except String Unit)),
      ((l.Start builds).2.1).errors = some { buf := [], closed := false }) ∧
    (∀ (l : Listener) (builds : List (Except String Unit)),
      (l.Start builds).1 = Except.ok () →
      ((l.Start builds).2.1).defaultChannel = some { buf := [], closed := false }) ∧
    (∀ l lf : Listener, l.Stop = Except.ok lf →
      (∃ chf, lf.defaultChannel = some chf ∧ chf.closed = true) ∧ lf.errors = l.errors) ∧
    (∀ (l : Listener) (proto : String),
      ((l.Protocol proto).2).defaultChannel = l.defaultChannel ∧
      ((l.Protocol proto).2).errors = l.errors) ∧
    (∀ (l : Listener) (c : TLSConn),
      ((l.connectionReceived c).2.2).errors = l.errors ∧
      (((l.connectionReceived c).2.2).defaultChannel).isSome = l.defaultChannel.isSome) := by
  refine ⟨fun l builds => ?_, fun l builds hok => ?_, fun l lf hs => ?_,
    fun l proto => ?_, fun l c => ?_⟩
  · exact startLoop_errors builds _ _ _ _
  · exact startLoop_ok_defaultChannel builds _ _ _ _ hok
  · obtain ⟨ch, hd, hc, rfl⟩ := Stop_ok_inv l lf hs
    exact ⟨⟨_, rfl, rfl⟩, rfl⟩
  · unfold Listener.Protocol
    split_ifs <;> exact ⟨rfl, rfl⟩
  · unfold Listener.connectionReceived
    split_ifs <;> simp

/-- C7 (witness): the amended lifecycle at the concrete listener: the error
channel is open after a real `Start`, and `Stop` leaves it untouched. -/
theorem claim_C7_witness :
    ((l0.Start [Except.ok ()]).2.1).errors = some { buf := [], closed := false } ∧
    l1stopped.errors = l1.errors :=
  ⟨claim_C7_amended.1 l0 [Except.ok ()], (claim_C7_amended.2.2.1 l1 l1stopped rfl).2⟩

/-- C9 (witness): the amended loop behaviour on the concrete post-stop
schedule. -/
theorem claim_C9_witness :
    worker.listen [(true, Except.error "use of closed network connection"), (false, Except.ok 0)] =
      [LoopEvent.forwarded "use of closed network connection"] :=
  claim_C9_amended "use of closed network connection" [(false, Except.ok 0)]
    (by intro p hp; simp at hp; rw [hp])
